import Mathlib

/-!
A shallow embedding of the address-book program in `src/main.py`.

Strings are modelled as Lean `String` (a list of unicode characters, as in
Python); `str.isdigit` is modelled by the table of inclusive codepoint
ranges of the characters it accepts — the Unicode digit characters, from
CPython's character database. Python exceptions are modelled as values of `PyErr` carrying
the runtime type name and the message of the raised exception; a method
that can raise is modelled either with `Except PyErr` or as a function
returning the object's state after the call paired with the raised
exception, if any (an exception aborts the method before any later
mutation, so the returned state reflects exactly the mutations performed
before the raise).
-/

/-- A Python exception value: the name of its runtime type (here always
`ValueError`) and its message string. -/
structure PyErr where
  typeName : String
  msg : String
deriving Repr, DecidableEq

/-- The exception raised by `Name.__init__` on an empty value:
`raise ValueError("Name cannot be empty.")`. -/
def nameEmptyErr : PyErr :=
  ⟨"ValueError", "Name cannot be empty."⟩

/-- The exception raised by `Phone.__init__` on a malformed value:
`raise ValueError("Phone number must consist of exactly 10 digits.")`. -/
def phoneFormatErr : PyErr :=
  ⟨"ValueError", "Phone number must consist of exactly 10 digits."⟩

/-- The inclusive codepoint ranges of the characters Python `str.isdigit`
accepts: every character of Unicode numeric type Digit or Decimal, per
CPython's character database — the decimal digits 48–57 plus the other
Unicode digit characters (superscripts, Arabic-Indic digits, ...). -/
def pyDigitRanges : List (Nat × Nat) :=
  [(48, 57), (0xb2, 0xb3), (0xb9, 0xb9), (0x660, 0x669), (0x6f0, 0x6f9),
   (0x7c0, 0x7c9), (0x966, 0x96f), (0x9e6, 0x9ef), (0xa66, 0xa6f),
   (0xae6, 0xaef), (0xb66, 0xb6f), (0xbe6, 0xbef), (0xc66, 0xc6f),
   (0xce6, 0xcef), (0xd66, 0xd6f), (0xde6, 0xdef), (0xe50, 0xe59),
   (0xed0, 0xed9), (0xf20, 0xf29), (0x1040, 0x1049), (0x1090, 0x1099),
   (0x1369, 0x1371), (0x17e0, 0x17e9), (0x1810, 0x1819), (0x1946, 0x194f),
   (0x19d0, 0x19da), (0x1a80, 0x1a89), (0x1a90, 0x1a99), (0x1b50, 0x1b59),
   (0x1bb0, 0x1bb9), (0x1c40, 0x1c49), (0x1c50, 0x1c59), (0x2070, 0x2070),
   (0x2074, 0x2079), (0x2080, 0x2089), (0x2460, 0x2468), (0x2474, 0x247c),
   (0x2488, 0x2490), (0x24ea, 0x24ea), (0x24f5, 0x24fd), (0x24ff, 0x24ff),
   (0x2776, 0x277e), (0x2780, 0x2788), (0x278a, 0x2792), (0xa620, 0xa629),
   (0xa8d0, 0xa8d9), (0xa900, 0xa909), (0xa9d0, 0xa9d9), (0xa9f0, 0xa9f9),
   (0xaa50, 0xaa59), (0xabf0, 0xabf9), (0xff10, 0xff19), (0x104a0, 0x104a9),
   (0x10a40, 0x10a43), (0x10d30, 0x10d39), (0x10e60, 0x10e68),
   (0x11052, 0x1105a), (0x11066, 0x1106f), (0x110f0, 0x110f9),
   (0x11136, 0x1113f), (0x111d0, 0x111d9), (0x112f0, 0x112f9),
   (0x11450, 0x11459), (0x114d0, 0x114d9), (0x11650, 0x11659),
   (0x116c0, 0x116c9), (0x11730, 0x11739), (0x118e0, 0x118e9),
   (0x11950, 0x11959), (0x11c50, 0x11c59), (0x11d50, 0x11d59),
   (0x11da0, 0x11da9), (0x16a60, 0x16a69), (0x16ac0, 0x16ac9),
   (0x16b50, 0x16b59), (0x1d7ce, 0x1d7ff), (0x1e140, 0x1e149),
   (0x1e2f0, 0x1e2f9), (0x1e950, 0x1e959), (0x1f100, 0x1f10a),
   (0x1fbf0, 0x1fbf9)]

/-- Python `str.isdigit` on one character: true exactly when the
character's codepoint lies in one of `pyDigitRanges`. -/
def pyIsDigit (c : Char) : Bool :=
  pyDigitRanges.any fun r => r.1 ≤ c.toNat && c.toNat ≤ r.2

/-- Python `str.isdigit`: true when the string is non-empty and every
character is a digit. -/
def pyStrIsDigit (s : String) : Bool :=
  s.length > 0 && s.data.all pyIsDigit

/-- `Name`: a contact name, `value` held by the `Field` base class. -/
structure Name where
  value : String
deriving Repr, DecidableEq

/-- `Name.__init__`: `if not value: raise ValueError("Name cannot be empty.")`,
then store the value. An empty string is the only falsy string. -/
def Name.init (value : String) : Except PyErr Name :=
  if value = "" then .error nameEmptyErr else .ok ⟨value⟩

/-- `Field.__str__` on a Name: `str(self.value)`. -/
def Name.render (n : Name) : String :=
  n.value

/-- `Phone`: a phone number, `value` held by the `Field` base class. -/
structure Phone where
  value : String
deriving Repr, DecidableEq

/-- `Phone.__init__`:
`if not value.isdigit() or len(value) != 10: raise ValueError(...)`,
then store the value. -/
def Phone.init (value : String) : Except PyErr Phone :=
  if !(pyStrIsDigit value) || value.length != 10 then .error phoneFormatErr
  else .ok ⟨value⟩

/-- `Field.__str__` on a Phone: `str(self.value)`. -/
def Phone.render (p : Phone) : String :=
  p.value

/-- `Record`: one contact, a `Name` plus an ordered list of `Phone`s. -/
structure Record where
  name : Name
  phones : List Phone
deriving Repr, DecidableEq

/-- `Record.__init__`: constructs the Name (which may raise) and starts
with an empty phone list. -/
def Record.init (name : String) : Except PyErr Record :=
  match Name.init name with
  | .ok n => .ok ⟨n, []⟩
  | .error e => .error e

/-- `Record.add_phone`: `self.phones.append(Phone(phone))`. `Phone(phone)`
is evaluated first; if it raises, the append never happens and the record
is unchanged. Returns the record's state after the call and the raised
exception, if any. -/
def Record.addPhone (r : Record) (phone : String) : Record × Option PyErr :=
  match Phone.init phone with
  | .ok p => ({ r with phones := r.phones ++ [p] }, none)
  | .error e => (r, some e)

/-- The loop of `Record.remove_phone`: remove the first entry whose value
equals `phone`, then break; no mutation when no entry matches. -/
def removePhoneList (phone : String) : List Phone → List Phone
  | [] => []
  | p :: ps => if p.value = phone then ps else p :: removePhoneList phone ps

/-- `Record.remove_phone`: removes the first phone whose value equals
`phone`; a silent no-op when there is no match. -/
def Record.removePhone (r : Record) (phone : String) : Record :=
  { r with phones := removePhoneList phone r.phones }

/-- The loop of `Record.edit_phone`: at the first entry whose value equals
`oldPhone`, evaluate `Phone(new_phone)` (which may raise) and assign it at
that index, then break; when the loop finds no match the list is left as
it is and no exception is raised. -/
def editPhoneList (oldPhone newPhone : String) : List Phone → Except PyErr (List Phone)
  | [] => .ok []
  | p :: ps =>
    if p.value = oldPhone then
      match Phone.init newPhone with
      | .ok np => .ok (np :: ps)
      | .error e => .error e
    else
      match editPhoneList oldPhone newPhone ps with
      | .ok ps₂ => .ok (p :: ps₂)
      | .error e => .error e

/-- `Record.edit_phone`: replaces the first phone equal to `oldPhone` with
a freshly validated `Phone(new_phone)`. Returns the record's state after
the call and the raised exception, if any; on an exception the assignment
has not happened, so the state is unchanged. -/
def Record.editPhone (r : Record) (oldPhone newPhone : String) : Record × Option PyErr :=
  match editPhoneList oldPhone newPhone r.phones with
  | .ok l => ({ r with phones := l }, none)
  | .error e => (r, some e)

/-- The loop of `Record.find_phone`: the value of the first matching
entry, or `""` after the loop. -/
def findPhoneList (phone : String) : List Phone → String
  | [] => ""
  | p :: ps => if p.value = phone then p.value else findPhoneList phone ps

/-- `Record.find_phone`: returns the matching phone's value if present,
otherwise the empty string. Pure: the record is not modified. -/
def Record.findPhone (r : Record) (phone : String) : String :=
  findPhoneList phone r.phones

/-- Python `"; ".join(parts)`. -/
def pyJoin (sep : String) : List String → String
  | [] => ""
  | [x] => x
  | x :: y :: xs => x ++ sep ++ pyJoin sep (y :: xs)

/-- The tail of a Python join: separator-then-part, repeated. -/
def pyJoinTail (sep : String) : List String → String
  | [] => ""
  | x :: xs => sep ++ x ++ pyJoinTail sep xs

/-- `Record.__str__`:
`f"Contact name: {self.name.value}, phones: {'; '.join(p.value for p in self.phones)}"`. -/
def Record.render (r : Record) : String :=
  "Contact name: " ++ r.name.value ++ ", phones: " ++
    pyJoin "; " (r.phones.map Phone.value)

/-- `AddressBook`: a `UserDict` mapping name strings to records, modelled
as an insertion-ordered association list with Python-dict semantics (a key
occurs at most once in any book built through the API). -/
structure AddressBook where
  data : List (String × Record)
deriving Repr, DecidableEq

/-- Python dict assignment `d[k] = v`: update the value in place at an
existing key, else append the new pair. -/
def dictSet (k : String) (v : Record) : List (String × Record) → List (String × Record)
  | [] => [(k, v)]
  | (k₂, v₂) :: rest => if k₂ = k then (k, v) :: rest else (k₂, v₂) :: dictSet k v rest

/-- Python `d.get(k)`: the value at the first occurrence of `k`, else `None`. -/
def dictGet (k : String) : List (String × Record) → Option Record
  | [] => none
  | (k₂, v) :: rest => if k₂ = k then some v else dictGet k rest

/-- Python `del d[k]`: remove the (first) entry at key `k`. -/
def dictDel (k : String) : List (String × Record) → List (String × Record)
  | [] => []
  | (k₂, v) :: rest => if k₂ = k then rest else (k₂, v) :: dictDel k rest

/-- Python `k in d`. -/
def dictHasKey (k : String) : List (String × Record) → Bool
  | [] => false
  | (k₂, _) :: rest => k₂ = k || dictHasKey k rest

/-- The number of entries stored under key `k` (1 for a present key and 0
for an absent one, in any well-formed dict). -/
def countKey (k : String) : List (String × Record) → Nat
  | [] => 0
  | (k₂, _) :: rest => (if k₂ = k then 1 else 0) + countKey k rest

/-- `AddressBook.add_record`: `self.data[record.name.value] = record`. -/
def AddressBook.addRecord (b : AddressBook) (r : Record) : AddressBook :=
  ⟨dictSet r.name.value r b.data⟩

/-- `AddressBook.find`: `self.data.get(name)`, `None` when absent. -/
def AddressBook.find (b : AddressBook) (name : String) : Option Record :=
  dictGet name b.data

/-- `AddressBook.delete`: `if name in self.data: del self.data[name]`;
a silent no-op when the key is absent. -/
def AddressBook.delete (b : AddressBook) (name : String) : AddressBook :=
  if dictHasKey name b.data then ⟨dictDel name b.data⟩ else b

example : Phone.init "1234567890" = .ok ⟨"1234567890"⟩ := rfl
example : Phone.init "123456789" = .error phoneFormatErr := rfl
example : Phone.init "12345678a0" = .error phoneFormatErr := rfl
example : Name.init "" = .error nameEmptyErr := rfl
example :
    (Record.mk ⟨"John"⟩ [⟨"1112223333"⟩, ⟨"5555555555"⟩]).render =
      "Contact name: John, phones: 1112223333; 5555555555" := by decide

/-! ### Helper lemmas on the value types -/

lemma pyStrIsDigit_iff (s : String) :
    pyStrIsDigit s = true ↔ 0 < s.length ∧ ∀ c ∈ s.data, pyIsDigit c = true := by
  simp [pyStrIsDigit, List.all_eq_true]

/-- `Phone.__init__` in guard-free form: success exactly on 10-character
all-digit strings. -/
lemma phoneInit_eq (s : String) :
    Phone.init s =
      if s.length = 10 ∧ ∀ c ∈ s.data, pyIsDigit c = true
      then .ok ⟨s⟩ else .error phoneFormatErr := by
  by_cases h : s.length = 10 ∧ ∀ c ∈ s.data, pyIsDigit c = true
  · rw [if_pos h]
    have h₁ : pyStrIsDigit s = true :=
      (pyStrIsDigit_iff s).2 ⟨by omega, h.2⟩
    simp [Phone.init, h₁, h.1]
  · rw [if_neg h]
    rcases Decidable.not_and_iff_or_not.mp h with h₁ | h₂
    · have h₃ : (s.length != 10) = true := by
        simpa using h₁
      simp [Phone.init, h₃]
    · have h₃ : pyStrIsDigit s = false := by
        rcases Bool.eq_false_or_eq_true (pyStrIsDigit s) with h₄ | h₄
        · rcases (pyStrIsDigit_iff s).1 h₄ with ⟨-, h₅⟩
          exact absurd h₅ h₂
        · exact h₄
      simp [Phone.init, h₃]

/-- Converse direction of `phoneInit_eq` for the error case, as a plain
characterisation of failure. -/
lemma phoneInit_error (s : String)
    (h : ¬ (s.length = 10 ∧ ∀ c ∈ s.data, pyIsDigit c = true)) :
    Phone.init s = .error phoneFormatErr := by
  rw [phoneInit_eq, if_neg h]

lemma phoneInit_ok (s : String)
    (h : s.length = 10 ∧ ∀ c ∈ s.data, pyIsDigit c = true) :
    Phone.init s = .ok ⟨s⟩ := by
  rw [phoneInit_eq, if_pos h]

/-! ### Claim theorems on the value types -/

/-- C1 counterexample: `Phone` construction succeeds on the 10-character
Arabic-Indic digit string `"٢٢٢٢٢٢٢٢٢٢"` and renders it unchanged —
Python `str.isdigit` accepts its characters although none of them is a
decimal-digit character, so success is NOT equivalent to "exactly 10
decimal digits". -/
theorem C1_counterexample :
    Phone.init "٢٢٢٢٢٢٢٢٢٢" = .ok ⟨"٢٢٢٢٢٢٢٢٢٢"⟩ ∧
    Phone.render ⟨"٢٢٢٢٢٢٢٢٢٢"⟩ = "٢٢٢٢٢٢٢٢٢٢" ∧
    ¬ (∀ c ∈ "٢٢٢٢٢٢٢٢٢٢".data, '0' ≤ c ∧ c ≤ '9') :=
  ⟨rfl, rfl, by decide⟩

/-- C1 (amended): for every string `s`, constructing a `Phone` with `s`
succeeds and its string rendering equals `s` if and only if `s` consists
of exactly 10 characters accepted by Python `str.isdigit` (the Unicode
digit characters, a strict superset of the decimal digits); any string of
a different length, or containing a character `str.isdigit` rejects,
fails with the phone-validation error. No normalization happens: the
stored (and rendered) value is `s` itself. -/
theorem C1_phone_validation (s : String) :
    ((∃ p, Phone.init s = .ok p ∧ p.render = s) ↔
      s.length = 10 ∧ ∀ c ∈ s.data, pyIsDigit c = true) ∧
    (¬ (s.length = 10 ∧ ∀ c ∈ s.data, pyIsDigit c = true) →
      Phone.init s = .error phoneFormatErr) := by
  constructor
  · constructor
    · rintro ⟨p, hp, -⟩
      by_contra h
      rw [phoneInit_error s h] at hp
      exact Except.noConfusion hp
    · intro h
      exact ⟨⟨s⟩, phoneInit_ok s h, rfl⟩
  · exact phoneInit_error s

/-- C1 witness: instances of both directions at concrete strings. -/
theorem C1_phone_validation_witness :
    (∃ p, Phone.init "1234567890" = .ok p ∧ p.render = "1234567890") ∧
    Phone.init "12a4567890" = .error phoneFormatErr :=
  ⟨(C1_phone_validation "1234567890").1.2 (by decide),
   (C1_phone_validation "12a4567890").2 (by decide)⟩

/-- C8: constructing a `Name` from any non-empty string succeeds and
renders the input unchanged; the empty string fails with the
name-validation error. -/
theorem C8_name_validation (s : String) :
    (s ≠ "" → Name.init s = .ok ⟨s⟩ ∧ Name.render ⟨s⟩ = s) ∧
    Name.init "" = .error nameEmptyErr := by
  refine ⟨fun h => ⟨?_, rfl⟩, rfl⟩
  simp [Name.init, h]

/-- C8 witness: a concrete non-empty name. -/
theorem C8_name_validation_witness :
    Name.init "John" = .ok ⟨"John"⟩ ∧ Name.render ⟨"John"⟩ = "John" :=
  (C8_name_validation "John").1 (by decide)

/-- C3 counterexample: the two validation failures raise exceptions of the
SAME runtime type, `ValueError` — the code defines no distinct
`InvalidNameError` or `InvalidPhoneError` exception types. -/
theorem C3_counterexample :
    Name.init "" = .error ⟨"ValueError", "Name cannot be empty."⟩ ∧
    Phone.init "123" = .error ⟨"ValueError", "Phone number must consist of exactly 10 digits."⟩ ∧
    nameEmptyErr.typeName = phoneFormatErr.typeName ∧
    nameEmptyErr.typeName ≠ "InvalidNameError" ∧
    phoneFormatErr.typeName ≠ "InvalidPhoneError" :=
  ⟨rfl, rfl, rfl, by decide, by decide⟩

/-- C3 (amended): constructing a Name from the empty string and a Phone
from any string rejected by the phone check (not exactly 10 Python-digit
characters) both fail with a `ValueError`; the two errors are distinct
values (distinguished by message, not by type), are produced
synchronously at construction, and propagate unchanged through
`add_phone`, which also leaves the record untouched. -/
theorem C3_construction_errors (s : String) (r : Record)
    (hs : ¬ (s.length = 10 ∧ ∀ c ∈ s.data, pyIsDigit c = true)) :
    Name.init "" = .error nameEmptyErr ∧
    Phone.init s = .error phoneFormatErr ∧
    nameEmptyErr.typeName = "ValueError" ∧
    phoneFormatErr.typeName = "ValueError" ∧
    nameEmptyErr ≠ phoneFormatErr ∧
    r.addPhone s = (r, some phoneFormatErr) := by
  have hp := phoneInit_error s hs
  exact ⟨rfl, hp, rfl, rfl, by decide, by simp [Record.addPhone, hp]⟩

/-- C3 witness: the amended statement at a concrete invalid phone and a
concrete record. -/
theorem C3_construction_errors_witness :
    Name.init "" = .error nameEmptyErr ∧
    Phone.init "123" = .error phoneFormatErr ∧
    nameEmptyErr.typeName = "ValueError" ∧
    phoneFormatErr.typeName = "ValueError" ∧
    nameEmptyErr ≠ phoneFormatErr ∧
    (Record.mk ⟨"John"⟩ []).addPhone "123" = (Record.mk ⟨"John"⟩ [], some phoneFormatErr) :=
  C3_construction_errors "123" (Record.mk ⟨"John"⟩ []) (by decide)

/-! ### Rendering -/

lemma pyJoin_cons (sep x : String) (xs : List String) :
    pyJoin sep (x :: xs) = x ++ pyJoinTail sep xs := by
  induction xs generalizing x with
  | nil => simp [pyJoin, pyJoinTail]
  | cons y ys ih =>
    rw [pyJoin, ih y, pyJoinTail]
    simp [String.append_assoc]

lemma intercalate_go_eq (sep : String) (xs : List String) :
    ∀ acc : String, String.intercalate.go acc sep xs = acc ++ pyJoinTail sep xs := by
  induction xs with
  | nil => intro acc; simp [String.intercalate.go, pyJoinTail]
  | cons y ys ih =>
    intro acc
    rw [String.intercalate.go, ih, pyJoinTail]
    simp [String.append_assoc]

/-- Python `sep.join` agrees with Lean's `String.intercalate`. -/
lemma pyJoin_eq_intercalate (sep : String) (xs : List String) :
    pyJoin sep xs = String.intercalate sep xs := by
  cases xs with
  | nil => rfl
  | cons x xs =>
    rw [pyJoin_cons, String.intercalate, intercalate_go_eq]

/-- C9: every record renders as `"Contact name: "` followed by the name's
value, `", phones: "`, and the stored phones' values in stored order
joined with `"; "`; with no phones the rendering ends right after
`"phones: "`. -/
theorem C9_record_render (r : Record) :
    r.render = "Contact name: " ++ r.name.value ++ ", phones: " ++
      String.intercalate "; " (r.phones.map Phone.value) ∧
    (r.phones = [] → r.render = "Contact name: " ++ r.name.value ++ ", phones: ") := by
  constructor
  · rw [Record.render, pyJoin_eq_intercalate]
  · intro h
    rw [Record.render, h]
    simp [pyJoin]

/-- C9 witness: the record from the program's own demonstration code, and
an empty-phone-list record. -/
theorem C9_record_render_witness :
    (Record.mk ⟨"John"⟩ [⟨"1112223333"⟩, ⟨"5555555555"⟩]).render =
      "Contact name: John, phones: " ++
        String.intercalate "; " ["1112223333", "5555555555"] ∧
    (Record.mk ⟨"Jane"⟩ []).render = "Contact name: Jane, phones: " :=
  ⟨(C9_record_render (Record.mk ⟨"John"⟩ [⟨"1112223333"⟩, ⟨"5555555555"⟩])).1,
   (C9_record_render (Record.mk ⟨"Jane"⟩ [])).2 rfl⟩

/-! ### Helper lemmas on the phone-list loops -/

lemma removePhoneList_no_match (raw : String) (l : List Phone)
    (h : ∀ q ∈ l, q.value ≠ raw) :
    removePhoneList raw l = l := by
  induction l with
  | nil => rfl
  | cons p ps ih =>
    rw [removePhoneList, if_neg (h p (List.mem_cons_self p ps))]
    rw [ih (fun q hq => h q (List.mem_cons_of_mem p hq))]

lemma removePhoneList_split (raw : String) (pre post : List Phone) (p : Phone)
    (hp : p.value = raw) (hpre : ∀ q ∈ pre, q.value ≠ raw) :
    removePhoneList raw (pre ++ p :: post) = pre ++ post := by
  induction pre with
  | nil => simp [removePhoneList, hp]
  | cons q qs ih =>
    rw [List.cons_append, removePhoneList,
      if_neg (hpre q (List.mem_cons_self q qs)),
      ih (fun q₂ hq₂ => hpre q₂ (List.mem_cons_of_mem q hq₂)), List.cons_append]

lemma editPhoneList_no_match (oldPhone newPhone : String) (l : List Phone)
    (h : ∀ q ∈ l, q.value ≠ oldPhone) :
    editPhoneList oldPhone newPhone l = .ok l := by
  induction l with
  | nil => rfl
  | cons p ps ih =>
    rw [editPhoneList, if_neg (h p (List.mem_cons_self p ps))]
    rw [ih (fun q hq => h q (List.mem_cons_of_mem p hq))]

lemma editPhoneList_split (oldPhone newPhone : String) (pre post : List Phone) (p : Phone)
    (hp : p.value = oldPhone) (hpre : ∀ q ∈ pre, q.value ≠ oldPhone) :
    editPhoneList oldPhone newPhone (pre ++ p :: post) =
      match Phone.init newPhone with
      | .ok np => .ok (pre ++ np :: post)
      | .error e => .error e := by
  induction pre with
  | nil =>
    rw [List.nil_append, editPhoneList, if_pos hp]
    cases Phone.init newPhone <;> simp
  | cons q qs ih =>
    rw [List.cons_append, editPhoneList,
      if_neg (hpre q (List.mem_cons_self q qs)),
      ih (fun q₂ hq₂ => hpre q₂ (List.mem_cons_of_mem q hq₂))]
    cases Phone.init newPhone <;> simp

lemma findPhoneList_match (raw : String) (l : List Phone)
    (h : ∃ p ∈ l, p.value = raw) :
    findPhoneList raw l = raw := by
  induction l with
  | nil => simp at h
  | cons p ps ih =>
    by_cases hp : p.value = raw
    · rw [findPhoneList, if_pos hp]; exact hp
    · rcases h with ⟨q, hq, hqv⟩
      rcases List.mem_cons.mp hq with h₁ | h₁
      · exact absurd (h₁ ▸ hqv) hp
      · rw [findPhoneList, if_neg hp]
        exact ih ⟨q, h₁, hqv⟩

lemma findPhoneList_no_match (raw : String) (l : List Phone)
    (h : ∀ p ∈ l, p.value ≠ raw) :
    findPhoneList raw l = "" := by
  induction l with
  | nil => rfl
  | cons p ps ih =>
    rw [findPhoneList, if_neg (h p (List.mem_cons_self p ps))]
    exact ih (fun q hq => h q (List.mem_cons_of_mem p hq))

lemma editPhoneList_error (oldPhone newPhone : String) (l : List Phone) (e : PyErr)
    (hex : ∃ p ∈ l, p.value = oldPhone) (herr : Phone.init newPhone = .error e) :
    editPhoneList oldPhone newPhone l = .error e := by
  induction l with
  | nil => simp at hex
  | cons p ps ih =>
    by_cases hp : p.value = oldPhone
    · rw [editPhoneList, if_pos hp, herr]
    · rcases hex with ⟨q, hq, hqv⟩
      rcases List.mem_cons.mp hq with h₁ | h₁
      · exact absurd (h₁ ▸ hqv) hp
      · rw [editPhoneList, if_neg hp, ih ⟨q, h₁, hqv⟩]

/-! ### Claim theorems on Record operations -/

/-- C2: `edit_phone old new` replaces the first phone equal to `old` with
a freshly validated Phone built from `new`, in place, all other entries
kept; with no entry equal to `old` the call changes nothing and never
looks at `new` — no error even when `new` is invalid. -/
theorem C2_edit_phone (r : Record) (oldPhone newPhone : String)
    (pre post : List Phone) (p np : Phone) (e : PyErr) :
    ((∀ q ∈ r.phones, q.value ≠ oldPhone) →
      r.editPhone oldPhone newPhone = (r, none)) ∧
    (r.phones = pre ++ p :: post → p.value = oldPhone →
      (∀ q ∈ pre, q.value ≠ oldPhone) →
      (Phone.init newPhone = .ok np →
        r.editPhone oldPhone newPhone = ({ r with phones := pre ++ np :: post }, none)) ∧
      (Phone.init newPhone = .error e →
        r.editPhone oldPhone newPhone = (r, some e))) := by
  constructor
  · intro h
    rw [Record.editPhone, editPhoneList_no_match oldPhone newPhone r.phones h]
  · intro hsplit hp hpre
    have hl := editPhoneList_split oldPhone newPhone pre post p hp hpre
    constructor
    · intro hok
      rw [hok] at hl
      rw [Record.editPhone, hsplit, hl]
    · intro herr
      rw [herr] at hl
      rw [Record.editPhone, hsplit, hl]

/-- C2 witness: the edit from the program's demonstration code, replacing
the first phone and keeping the second. -/
theorem C2_edit_phone_witness :
    (Record.mk ⟨"John"⟩ [⟨"1234567890"⟩, ⟨"5555555555"⟩]).editPhone
        "1234567890" "1112223333" =
      (Record.mk ⟨"John"⟩ [⟨"1112223333"⟩, ⟨"5555555555"⟩], none) :=
  ((C2_edit_phone (Record.mk ⟨"John"⟩ [⟨"1234567890"⟩, ⟨"5555555555"⟩])
      "1234567890" "1112223333" [] [⟨"5555555555"⟩] ⟨"1234567890"⟩ ⟨"1112223333"⟩
      ⟨"", ""⟩).2 rfl rfl (by simp)).1 rfl

/-- C4: `remove_phone raw` removes exactly the first phone equal to `raw`,
keeping every other entry (later duplicates included) in relative order;
with no match the phone list is unchanged and no error is raised. -/
theorem C4_remove_phone (r : Record) (raw : String) (pre post : List Phone) (p : Phone) :
    ((∀ q ∈ r.phones, q.value ≠ raw) → r.removePhone raw = r) ∧
    (r.phones = pre ++ p :: post → p.value = raw → (∀ q ∈ pre, q.value ≠ raw) →
      r.removePhone raw = { r with phones := pre ++ post }) := by
  constructor
  · intro h
    rw [Record.removePhone, removePhoneList_no_match raw r.phones h]
  · intro hsplit hp hpre
    rw [Record.removePhone, hsplit, removePhoneList_split raw pre post p hp hpre]

/-- C4 witness: removing a duplicated number removes only its first
occurrence; removing an absent number changes nothing. -/
theorem C4_remove_phone_witness :
    (Record.mk ⟨"John"⟩ [⟨"1112223333"⟩, ⟨"5555555555"⟩, ⟨"1112223333"⟩]).removePhone
        "1112223333" =
      Record.mk ⟨"John"⟩ [⟨"5555555555"⟩, ⟨"1112223333"⟩] ∧
    (Record.mk ⟨"John"⟩ [⟨"5555555555"⟩]).removePhone "1234567890" =
      Record.mk ⟨"John"⟩ [⟨"5555555555"⟩] :=
  ⟨(C4_remove_phone (Record.mk ⟨"John"⟩ [⟨"1112223333"⟩, ⟨"5555555555"⟩, ⟨"1112223333"⟩])
      "1112223333" [] [⟨"5555555555"⟩, ⟨"1112223333"⟩] ⟨"1112223333"⟩).2 rfl rfl (by simp),
   (C4_remove_phone (Record.mk ⟨"John"⟩ [⟨"5555555555"⟩])
      "1234567890" [] [] ⟨""⟩).1 (by decide)⟩

/-- C5: `find_phone raw` returns `raw` itself (the matching phone's
rendered value) when some stored phone's value equals `raw`, and the empty
string when none does; it is a pure function of the record — it raises
nothing and modifies nothing. -/
theorem C5_find_phone (r : Record) (raw : String) :
    ((∃ p ∈ r.phones, p.value = raw) → r.findPhone raw = raw) ∧
    ((∀ p ∈ r.phones, p.value ≠ raw) → r.findPhone raw = "") :=
  ⟨fun h => findPhoneList_match raw r.phones h,
   fun h => findPhoneList_no_match raw r.phones h⟩

/-- C5 witness: lookups from the program's demonstration code, present and
absent. -/
theorem C5_find_phone_witness :
    (Record.mk ⟨"John"⟩ [⟨"1112223333"⟩, ⟨"5555555555"⟩]).findPhone "5555555555" =
      "5555555555" ∧
    (Record.mk ⟨"John"⟩ [⟨"1112223333"⟩, ⟨"5555555555"⟩]).findPhone "1234567890" = "" :=
  ⟨(C5_find_phone (Record.mk ⟨"John"⟩ [⟨"1112223333"⟩, ⟨"5555555555"⟩]) "5555555555").1
      (by decide),
   (C5_find_phone (Record.mk ⟨"John"⟩ [⟨"1112223333"⟩, ⟨"5555555555"⟩]) "1234567890").2
      (by decide)⟩

/-- C10: when `add_phone` or `edit_phone` raises the phone-validation
error, the record (its phone list included) is exactly as before the call:
the Phone is constructed and validated before any mutation. -/
theorem C10_atomicity (r : Record) (s oldPhone newPhone : String) (e₁ e₂ : PyErr) :
    (Phone.init s = .error e₁ → r.addPhone s = (r, some e₁)) ∧
    ((∃ p ∈ r.phones, p.value = oldPhone) → Phone.init newPhone = .error e₂ →
      r.editPhone oldPhone newPhone = (r, some e₂)) := by
  constructor
  · intro h
    simp [Record.addPhone, h]
  · intro hex herr
    rw [Record.editPhone, editPhoneList_error oldPhone newPhone r.phones e₂ hex herr]

/-- C10 witness: an invalid phone string leaves a concrete record
unchanged through both `add_phone` and `edit_phone`. -/
theorem C10_atomicity_witness :
    (Record.mk ⟨"John"⟩ [⟨"1234567890"⟩]).addPhone "12" =
      (Record.mk ⟨"John"⟩ [⟨"1234567890"⟩], some phoneFormatErr) ∧
    (Record.mk ⟨"John"⟩ [⟨"1234567890"⟩]).editPhone "1234567890" "12" =
      (Record.mk ⟨"John"⟩ [⟨"1234567890"⟩], some phoneFormatErr) :=
  ⟨(C10_atomicity (Record.mk ⟨"John"⟩ [⟨"1234567890"⟩]) "12" "1234567890" "12"
      phoneFormatErr phoneFormatErr).1 rfl,
   (C10_atomicity (Record.mk ⟨"John"⟩ [⟨"1234567890"⟩]) "12" "1234567890" "12"
      phoneFormatErr phoneFormatErr).2 (by decide) rfl⟩

/-! ### Helper lemmas on the dict operations -/

lemma dictGet_dictSet_self (k : String) (v : Record) (d : List (String × Record)) :
    dictGet k (dictSet k v d) = some v := by
  induction d with
  | nil => simp [dictSet, dictGet]
  | cons kv rest ih =>
    obtain ⟨k₂, v₂⟩ := kv
    by_cases h : k₂ = k
    · simp [dictSet, dictGet, h]
    · simp [dictSet, dictGet, h, ih]

lemma dictGet_dictSet_ne (k k₂ : String) (v : Record) (d : List (String × Record))
    (h : k₂ ≠ k) :
    dictGet k₂ (dictSet k v d) = dictGet k₂ d := by
  induction d with
  | nil => simp [dictSet, dictGet, Ne.symm h]
  | cons kv rest ih =>
    obtain ⟨k₃, v₃⟩ := kv
    by_cases h₃ : k₃ = k
    · subst h₃
      simp [dictSet, dictGet, Ne.symm h]
    · by_cases h₄ : k₃ = k₂
      · simp [dictSet, dictGet, h₃, h₄, h]
      · simp [dictSet, dictGet, h₃, h₄, ih]

lemma countKey_eq_zero_of_not_mem (k : String) (d : List (String × Record))
    (h : k ∉ d.map Prod.fst) :
    countKey k d = 0 := by
  induction d with
  | nil => rfl
  | cons kv rest ih =>
    obtain ⟨k₂, v₂⟩ := kv
    simp only [List.map_cons, List.mem_cons] at h
    push_neg at h
    rw [countKey, if_neg (fun h₂ => h.1 h₂.symm), ih h.2]

lemma countKey_le_one_of_nodup (k : String) (d : List (String × Record))
    (h : (d.map Prod.fst).Nodup) :
    countKey k d ≤ 1 := by
  induction d with
  | nil => simp [countKey]
  | cons kv rest ih =>
    obtain ⟨k₂, v₂⟩ := kv
    rw [List.map_cons, List.nodup_cons] at h
    by_cases h₂ : k₂ = k
    · subst h₂
      rw [countKey, if_pos rfl, countKey_eq_zero_of_not_mem k₂ rest h.1]
    · rw [countKey, if_neg h₂]
      simpa using ih h.2

lemma countKey_dictSet (k : String) (v : Record) (d : List (String × Record))
    (h : countKey k d ≤ 1) :
    countKey k (dictSet k v d) = 1 := by
  induction d with
  | nil => simp [dictSet, countKey]
  | cons kv rest ih =>
    obtain ⟨k₂, v₂⟩ := kv
    by_cases h₂ : k₂ = k
    · subst h₂
      rw [countKey, if_pos rfl] at h
      have h₃ : countKey k₂ rest = 0 := by omega
      simp [dictSet, countKey, h₃]
    · rw [countKey, if_neg h₂] at h
      simp only [dictSet, if_neg h₂, countKey, if_neg h₂]
      rw [ih (by omega)]

lemma countKey_dictSet_ne (k k₂ : String) (v : Record) (d : List (String × Record))
    (h : k₂ ≠ k) :
    countKey k₂ (dictSet k v d) = countKey k₂ d := by
  induction d with
  | nil => simp [dictSet, countKey, Ne.symm h]
  | cons kv rest ih =>
    obtain ⟨k₃, v₃⟩ := kv
    by_cases h₃ : k₃ = k
    · subst h₃
      simp [dictSet, countKey, Ne.symm h]
    · simp only [dictSet, if_neg h₃, countKey]
      rw [ih]

lemma dictGet_none_of_not_mem (k : String) (d : List (String × Record))
    (h : k ∉ d.map Prod.fst) :
    dictGet k d = none := by
  induction d with
  | nil => rfl
  | cons kv rest ih =>
    obtain ⟨k₂, v₂⟩ := kv
    simp only [List.map_cons, List.mem_cons] at h
    push_neg at h
    rw [dictGet, if_neg (fun h₂ => h.1 h₂.symm), ih h.2]

lemma dictGet_none_iff_hasKey (k : String) (d : List (String × Record)) :
    dictGet k d = none ↔ dictHasKey k d = false := by
  induction d with
  | nil => simp [dictGet, dictHasKey]
  | cons kv rest ih =>
    obtain ⟨k₂, v₂⟩ := kv
    by_cases h : k₂ = k
    · simp [dictGet, dictHasKey, h]
    · simp [dictGet, dictHasKey, h, ih]

lemma dictGet_dictDel_self (k : String) (d : List (String × Record))
    (h : (d.map Prod.fst).Nodup) :
    dictGet k (dictDel k d) = none := by
  induction d with
  | nil => rfl
  | cons kv rest ih =>
    obtain ⟨k₂, v₂⟩ := kv
    rw [List.map_cons, List.nodup_cons] at h
    by_cases h₂ : k₂ = k
    · subst h₂
      rw [dictDel, if_pos rfl]
      exact dictGet_none_of_not_mem k₂ rest h.1
    · rw [dictDel, if_neg h₂, dictGet, if_neg h₂]
      exact ih h.2

lemma dictGet_of_mem (k : String) (r : Record) (d : List (String × Record))
    (hmem : (k, r) ∈ d) (h : (d.map Prod.fst).Nodup) :
    dictGet k d = some r := by
  induction d with
  | nil => simp at hmem
  | cons kv rest ih =>
    obtain ⟨k₂, v₂⟩ := kv
    rw [List.map_cons, List.nodup_cons] at h
    rcases List.mem_cons.mp hmem with h₁ | h₁
    · rw [dictGet, if_pos (congrArg Prod.fst h₁).symm]
      exact congrArg (some ∘ Prod.snd) h₁.symm
    · by_cases h₂ : k₂ = k
      · subst h₂
        exact absurd (List.mem_map_of_mem Prod.fst h₁) h.1
      · rw [dictGet, if_neg h₂]
        exact ih h₁ h.2

/-! ### Claim theorems on the AddressBook -/

/-- C6: `add_record r` stores `r` under the key `r.name.value`,
overwriting any prior entry for that key; adding two records with the same
name leaves exactly one entry under that name, holding the second record,
and entries under every other key are unchanged. -/
theorem C6_add_record (b : AddressBook) (r₁ r₂ : Record) (n k : String)
    (h₁ : r₁.name.value = n) (h₂ : r₂.name.value = n) (hk : k ≠ n)
    (hnodup : (b.data.map Prod.fst).Nodup) :
    (b.addRecord r₁).find n = some r₁ ∧
    (b.addRecord r₁).find k = b.find k ∧
    ((b.addRecord r₁).addRecord r₂).find n = some r₂ ∧
    ((b.addRecord r₁).addRecord r₂).find k = b.find k ∧
    countKey n ((b.addRecord r₁).addRecord r₂).data = 1 := by
  subst h₁
  have hle := countKey_le_one_of_nodup r₁.name.value b.data hnodup
  have hinner : countKey r₁.name.value (dictSet r₁.name.value r₁ b.data) = 1 :=
    countKey_dictSet r₁.name.value r₁ b.data hle
  simp only [AddressBook.addRecord, AddressBook.find]
  refine ⟨dictGet_dictSet_self r₁.name.value r₁ b.data,
    dictGet_dictSet_ne r₁.name.value k r₁ b.data hk, ?_, ?_, ?_⟩
  · rw [h₂]
    exact dictGet_dictSet_self r₁.name.value r₂ (dictSet r₁.name.value r₁ b.data)
  · rw [h₂, dictGet_dictSet_ne r₁.name.value k r₂ (dictSet r₁.name.value r₁ b.data) hk]
    exact dictGet_dictSet_ne r₁.name.value k r₁ b.data hk
  · rw [h₂]
    exact countKey_dictSet r₁.name.value r₂ (dictSet r₁.name.value r₁ b.data)
      (le_of_eq hinner)

/-- C6 witness: two records named John added to a book holding Jane. -/
theorem C6_add_record_witness :
    ((AddressBook.mk [("Jane", Record.mk ⟨"Jane"⟩ [])]).addRecord
        (Record.mk ⟨"John"⟩ [])).find "John" = some (Record.mk ⟨"John"⟩ []) ∧
    ((AddressBook.mk [("Jane", Record.mk ⟨"Jane"⟩ [])]).addRecord
        (Record.mk ⟨"John"⟩ [])).find "Jane" =
      (AddressBook.mk [("Jane", Record.mk ⟨"Jane"⟩ [])]).find "Jane" ∧
    (((AddressBook.mk [("Jane", Record.mk ⟨"Jane"⟩ [])]).addRecord
        (Record.mk ⟨"John"⟩ [])).addRecord
          (Record.mk ⟨"John"⟩ [⟨"5555555555"⟩])).find "John" =
      some (Record.mk ⟨"John"⟩ [⟨"5555555555"⟩]) ∧
    (((AddressBook.mk [("Jane", Record.mk ⟨"Jane"⟩ [])]).addRecord
        (Record.mk ⟨"John"⟩ [])).addRecord
          (Record.mk ⟨"John"⟩ [⟨"5555555555"⟩])).find "Jane" =
      (AddressBook.mk [("Jane", Record.mk ⟨"Jane"⟩ [])]).find "Jane" ∧
    countKey "John"
      ((((AddressBook.mk [("Jane", Record.mk ⟨"Jane"⟩ [])]).addRecord
        (Record.mk ⟨"John"⟩ [])).addRecord
          (Record.mk ⟨"John"⟩ [⟨"5555555555"⟩]))).data = 1 :=
  C6_add_record (AddressBook.mk [("Jane", Record.mk ⟨"Jane"⟩ [])])
    (Record.mk ⟨"John"⟩ []) (Record.mk ⟨"John"⟩ [⟨"5555555555"⟩])
    "John" "Jane" rfl rfl (by decide) (by decide)

/-- C7: `delete n` removes the entry for `n` and is a silent no-op when
`n` is absent; afterwards `find n` is `None`; `find` on an absent name is
`None` and on a stored name returns exactly the stored record. -/
theorem C7_delete_find (b : AddressBook) (n m : String) (r : Record)
    (hnodup : (b.data.map Prod.fst).Nodup) :
    (b.find n = none → b.delete n = b) ∧
    (b.delete n).find n = none ∧
    ((n, r) ∈ b.data → b.find n = some r) ∧
    (m ∉ b.data.map Prod.fst → b.find m = none) := by
  refine ⟨?_, ?_, ?_, ?_⟩
  · intro h
    rw [AddressBook.delete, (dictGet_none_iff_hasKey n b.data).1 h]
    simp
  · rw [AddressBook.delete]
    by_cases h : dictHasKey n b.data = true
    · rw [if_pos h]
      exact dictGet_dictDel_self n b.data hnodup
    · rw [if_neg h]
      exact (dictGet_none_iff_hasKey n b.data).2 (Bool.not_eq_true _ ▸ h)
  · intro hmem
    exact dictGet_of_mem n r b.data hmem hnodup
  · intro hm
    exact dictGet_none_of_not_mem m b.data hm

/-- C7 witness: deleting Jane from a two-entry book, then looking her up;
finding John yields the stored record; an absent name finds nothing and
deleting it changes nothing. -/
theorem C7_delete_find_witness :
    ((AddressBook.mk [("John", Record.mk ⟨"John"⟩ []),
        ("Jane", Record.mk ⟨"Jane"⟩ [])]).delete "Jane").find "Jane" = none ∧
    (AddressBook.mk [("John", Record.mk ⟨"John"⟩ []),
        ("Jane", Record.mk ⟨"Jane"⟩ [])]).find "John" = some (Record.mk ⟨"John"⟩ []) ∧
    (AddressBook.mk [("John", Record.mk ⟨"John"⟩ []),
        ("Jane", Record.mk ⟨"Jane"⟩ [])]).find "Bob" = none ∧
    (AddressBook.mk [("John", Record.mk ⟨"John"⟩ []),
        ("Jane", Record.mk ⟨"Jane"⟩ [])]).delete "Bob" =
      AddressBook.mk [("John", Record.mk ⟨"John"⟩ []),
        ("Jane", Record.mk ⟨"Jane"⟩ [])] :=
  ⟨(C7_delete_find (AddressBook.mk [("John", Record.mk ⟨"John"⟩ []),
      ("Jane", Record.mk ⟨"Jane"⟩ [])]) "Jane" "Bob" (Record.mk ⟨"John"⟩ [])
      (by decide)).2.1,
   (C7_delete_find (AddressBook.mk [("John", Record.mk ⟨"John"⟩ []),
      ("Jane", Record.mk ⟨"Jane"⟩ [])]) "John" "Bob" (Record.mk ⟨"John"⟩ [])
      (by decide)).2.2.1 (by decide),
   (C7_delete_find (AddressBook.mk [("John", Record.mk ⟨"John"⟩ []),
      ("Jane", Record.mk ⟨"Jane"⟩ [])]) "Jane" "Bob" (Record.mk ⟨"John"⟩ [])
      (by decide)).2.2.2 (by decide),
   (C7_delete_find (AddressBook.mk [("John", Record.mk ⟨"John"⟩ []),
      ("Jane", Record.mk ⟨"Jane"⟩ [])]) "Bob" "Bob" (Record.mk ⟨"John"⟩ [])
      (by decide)).1 (by decide)⟩
